import Mathlib

/-!
Verification development for the web-scraper repository.

The Python source is shallowly embedded: dictionaries become association
lists over an inductive value type `Val`, Python truthiness becomes the
boolean `truthy`, machine floats are abstracted as rationals, and effectful
scraping code (network, browser automation) is modelled as pure functions
over an explicit environment describing the outcomes of the effects.
-/

/-- Python-style values as they occur in raw product records: strings,
integers, floats (abstracted as rationals), lists, dictionaries and None.
Abstracting IEEE rounding only affects the numeric value carried, never
which branch the embedded code takes. -/
inductive Val : Type where
  | vNone : Val
  | vStr : String → Val
  | vInt : Int → Val
  | vRat : ℚ → Val
  | vList : List Val → Val
  | vDict : List (String × Val) → Val

open Val

/-- Python truthiness: None, empty string, zero, empty list and empty dict
are falsy, everything else is truthy. -/
def truthy : Val → Bool
  | vNone => false
  | vStr s => !s.isEmpty
  | vInt n => n != 0
  | vRat q => q != 0
  | vList xs => !xs.isEmpty
  | vDict kvs => !kvs.isEmpty

/-- Python str() applied to a value. Strings are returned unchanged and
None renders as the text None; numeric and container rendering is a plain
placeholder because no verified claim inspects a concrete rendering of a
non-string value. -/
def pyToStr : Val → String
  | vStr s => s
  | vNone => "None"
  | vInt n => toString n
  | vRat q => toString q
  | vList _ => "[...]"
  | vDict _ => "dict"

/-- Dictionary key lookup: some value when the key is present. Records
(raw, standardized, cleaned) are Python dicts, embedded as association
lists in insertion order with the first binding of a key giving its
value. -/
def lookupV : List (String × Val) → String → Option Val
  | [], _ => none
  | (k, v) :: rest, key => if k = key then some v else lookupV rest key

/-- Python dict .get with default None. -/
def pyGet (d : List (String × Val)) (k : String) : Val :=
  match lookupV d k with
  | some v => v
  | none => vNone

/-- The whitespace characters matched by the regex class backslash-s in the
cleaner (ASCII set; the model treats this set as the definition of
whitespace). -/
def isPySpace (c : Char) : Bool :=
  c = ' ' || c = '\t' || c = '\n' || c = '\x0d' || c = '\x0c' || c = '\x0b'

/-- One pass of re.sub collapsing each run of whitespace to a single space,
as in clean_name. The flag records whether we are inside a whitespace run. -/
def collapseWsAux : Bool → List Char → List Char
  | _, [] => []
  | inRun, c :: rest =>
    if isPySpace c then
      if inRun then collapseWsAux true rest
      else ' ' :: collapseWsAux true rest
    else c :: collapseWsAux false rest

/-- Python str.strip(): drop whitespace from both ends. -/
def pyStrip (l : List Char) : List Char :=
  ((l.dropWhile isPySpace).reverse.dropWhile isPySpace).reverse

/-- Python str.strip() on strings. -/
def pyStripStr (s : String) : String :=
  String.mk (pyStrip s.data)

/-- clean_name from data_processor/cleaner.py: falsy input yields None,
otherwise whitespace runs are collapsed to one space and the result is
stripped. A truthy non-string name would raise TypeError in re.sub in the
source; that path is outside the model (the cleaner only ever receives
names that originated as strings or were stringified upstream). -/
def clean_name (v : Val) : Val :=
  if truthy v then
    match v with
    | vStr s => vStr (String.mk (pyStrip (collapseWsAux false s.data)))
    | _ => vNone
  else vNone

/-- Maximal leading run of decimal digits (regex backslash-d plus). -/
def takeDigits (l : List Char) : List Char × List Char :=
  match l with
  | [] => ([], [])
  | c :: rest =>
    if c.isDigit then
      let (ds, r) := takeDigits rest
      (c :: ds, r)
    else ([], c :: rest)

/-- First match of the clean_price regex: the leftmost maximal digit run,
extended by a dot and a further digit run when the dot is immediately
followed by a digit. Returns the matched token. -/
def firstNumToken : List Char → Option (List Char)
  | [] => none
  | c :: rest =>
    if c.isDigit then
      let (ds, r1) := takeDigits (c :: rest)
      match r1 with
      | '.' :: d :: r2 =>
        if d.isDigit then
          let (fs, _) := takeDigits (d :: r2)
          some (ds ++ '.' :: fs)
        else some ds
      | _ => some ds
    else firstNumToken rest

/-- First match of group one of the clean_discount regex: the leftmost
maximal run of digits (the optional minus and percent around it are not
part of the group). -/
def firstDigitRun : List Char → Option (List Char)
  | [] => none
  | c :: rest =>
    if c.isDigit then some (takeDigits (c :: rest)).1
    else firstDigitRun rest

/-- Numeric value of a digit list read in base ten. -/
def digitsToNat : List Char → Nat
  | [] => 0
  | c :: rest => digitsToNat rest + c.toNat.sub 48 * 10 ^ rest.length

/-- The rational denoted by a matched numeric token: integer part plus
fractional digits over the matching power of ten. -/
def tokenToRat (tok : List Char) : ℚ :=
  let (ds, r) := takeDigits tok
  match r with
  | '.' :: fs => (digitsToNat ds : ℚ) + (digitsToNat fs : ℚ) / 10 ^ fs.length
  | _ => (digitsToNat ds : ℚ)

/-- clean_price from data_processor/cleaner.py: falsy input yields None,
otherwise the input is stringified and the first numeric token (digits with
an optional single decimal point) anywhere in it is parsed; no token yields
None. The float conversion is modelled exactly over the rationals. -/
def clean_price (v : Val) : Val :=
  if truthy v then
    match firstNumToken (pyToStr v).data with
    | some tok => vRat (tokenToRat tok)
    | none => vNone
  else vNone

/-- clean_discount from data_processor/cleaner.py: falsy input yields None,
otherwise the first run of digits in the stringified input (an optional
leading minus and trailing percent are outside the capture group) is parsed
as a non-negative integer; no digits yields None. -/
def clean_discount (v : Val) : Val :=
  if truthy v then
    match firstDigitRun (pyToStr v).data with
    | some ds => vInt (digitsToNat ds)
    | none => vNone
  else vNone

/-- clean_product_data applied to one standardized record: the seven fixed
fields are rebuilt, names through clean_name, prices through clean_price,
discounts through clean_discount, the rest copied via dict .get. -/
def clean_one (st : List (String × Val)) : List (String × Val) :=
  [("name", clean_name (pyGet st "name")),
   ("brand", pyGet st "brand"),
   ("price", clean_price (pyGet st "price")),
   ("original_price", clean_price (pyGet st "original_price")),
   ("discount", clean_discount (pyGet st "discount")),
   ("url", pyGet st "url"),
   ("image_url", pyGet st "image_url")]

/-- clean_product_data from data_processor/cleaner.py. -/
def clean_product_data (sts : List (List (String × Val))) : List (List (String × Val)) :=
  sts.map clean_one

example : clean_price vNone = vNone := rfl
example : clean_price (vStr "Price not available") = vNone := rfl
example : clean_discount (vStr "-50%") = vInt 50 := rfl
example : clean_discount (vStr "-50") = vInt 50 := rfl
example : clean_discount vNone = vNone := rfl
example : clean_discount (vStr "Sale") = vNone := rfl
example : clean_name (vStr "  A   B  ") = vStr "A B" := rfl
example : clean_name vNone = vNone := rfl
example : clean_name (vStr "   ") = vStr "" := rfl

/-- The condition on line 46 and 56 of standardizer.py: the record has a
variants key, the value is truthy, and the first variant (a dict) has the
given field. Returns that field when the condition holds. Indexing a
truthy non-list value and membership tests on non-dict elements would
raise in Python and are outside the model. -/
def variantFld (p : List (String × Val)) (fld : String) : Option Val :=
  match lookupV p "variants" with
  | none => none
  | some vs =>
    if truthy vs then
      match vs with
      | vList (vDict kvs :: _) => lookupV kvs fld
      | _ => none
    else none

/-- Name resolution in standardize_products: name, then title, then the
sentinel Unknown Product. -/
def resolveName (p : List (String × Val)) : Val :=
  match lookupV p "name" with
  | some v => v
  | none =>
    match lookupV p "title" with
    | some v => v
    | none => vStr "Unknown Product"

/-- Brand resolution: brand, then vendor, then None. -/
def resolveBrand (p : List (String × Val)) : Val :=
  match lookupV p "brand" with
  | some v => v
  | none =>
    match lookupV p "vendor" with
    | some v => v
    | none => vNone

/-- Price resolution: price, then stringified price_min, then the first
variant price, then None. -/
def resolvePrice (p : List (String × Val)) : Val :=
  match lookupV p "price" with
  | some v => v
  | none =>
    match lookupV p "price_min" with
    | some w => vStr (pyToStr w)
    | none =>
      match variantFld p "price" with
      | some v => v
      | none => vNone

/-- Original price resolution: original_price, then compare_at_price, then
the first variant compare_at_price, then the already resolved price. -/
def resolveOrigPrice (p : List (String × Val)) : Val :=
  match lookupV p "original_price" with
  | some v => v
  | none =>
    match lookupV p "compare_at_price" with
    | some v => v
    | none =>
      match variantFld p "compare_at_price" with
      | some v => v
      | none => resolvePrice p

/-- Discount resolution: discount, then None. -/
def resolveDiscount (p : List (String × Val)) : Val :=
  match lookupV p "discount" with
  | some v => v
  | none => vNone

/-- URL resolution: url, then a product URL derived from handle, then
None. -/
def resolveUrl (p : List (String × Val)) : Val :=
  match lookupV p "url" with
  | some v => v
  | none =>
    match lookupV p "handle" with
    | some h => vStr ("https://justyol.com/en/products/" ++ pyToStr h)
    | none => vNone

/-- The image_url assignment of standardize_products, lines 76 to 95.
Returns some value when the source assigns the key, none when no branch of
the image elif chain performs an assignment: that happens exactly when the
first matching source key is image and its value is neither a string nor a
dict containing src. -/
def imageUrlAssign (p : List (String × Val)) : Option Val :=
  match lookupV p "image_url" with
  | some v => some v
  | none =>
    match lookupV p "image" with
    | some (vStr s) => some (vStr s)
    | some (vDict kvs) =>
      match lookupV kvs "src" with
      | some v => some v
      | none => none
    | some _ => none
    | none =>
      match lookupV p "featured_image" with
      | some v => some v
      | none =>
        match lookupV p "images" with
        | some imgs =>
          if truthy imgs then
            some (match imgs with
              | vList (img0 :: _) =>
                match img0 with
                | vDict kvs =>
                  match lookupV kvs "src" with
                  | some v => v
                  | none => vStr (pyToStr img0)
                | _ => vStr (pyToStr img0)
              | _ => vStr (pyToStr imgs))
          else some vNone
        | none => some vNone

/-- The final name guard on line 98: the resolved name must be truthy and
must differ from the sentinel string Unknown Product. A non-string name is
never equal to the sentinel, matching Python inequality across types. -/
def isSentinelName : Val → Bool
  | vStr s => s == "Unknown Product"
  | _ => false

/-- standardize_products applied to one raw record (the loop body of
standardizer.py): some standardized dict in assignment order when the
record is kept, none when it is dropped by the name guard. Records are
dicts by construction of the embedding, so the isinstance dict test of
line 24 always passes. -/
def standardize_one (p : List (String × Val)) : Option (List (String × Val)) :=
  if truthy (resolveName p) && !isSentinelName (resolveName p) then
    some
      ([("name", resolveName p),
        ("brand", resolveBrand p),
        ("price", resolvePrice p),
        ("original_price", resolveOrigPrice p),
        ("discount", resolveDiscount p),
        ("url", resolveUrl p)]
        ++ (match imageUrlAssign p with
            | some v => [("image_url", v)]
            | none => []))
  else none

/-- standardize_products from data_processor/standardizer.py. -/
def standardize_products : List (List (String × Val)) → List (List (String × Val))
  | [] => []
  | p :: rest =>
    match standardize_one p with
    | some st => st :: standardize_products rest
    | none => standardize_products rest

/-- Spec-side description of price resolution, following the words of the
spec: first present of price, stringified price_min, the first variant
price, else absent. Stated separately from resolvePrice so that agreement
with the code can be proved. -/
def priceSpecChain (p : List (String × Val)) : Val :=
  match lookupV p "price" with
  | some v => v
  | none =>
    match lookupV p "price_min" with
    | some w => vStr (pyToStr w)
    | none =>
      match variantFld p "price" with
      | some v => v
      | none => vNone

/-- Spec-side description of original price resolution: first present of
original_price, compare_at_price, the first variant compare_at_price, else
the resolved price. -/
def origPriceSpecChain (p : List (String × Val)) : Val :=
  match lookupV p "original_price" with
  | some v => v
  | none =>
    match lookupV p "compare_at_price" with
    | some v => v
    | none =>
      match variantFld p "compare_at_price" with
      | some v => v
      | none => priceSpecChain p

/-- True when a string starts with two slashes (a protocol relative URL). -/
def startsTwoSlash (s : String) : Bool :=
  match s.data with
  | '/' :: '/' :: _ => true
  | _ => false

/-- One listing element of the playwright DOM backend, at the level of
resolved selector outcomes: each field is the inner text or attribute the
corresponding query_selector produced, or none when the selector found no
element. The browser effects behind the queries are summarized by these
outcomes. -/
structure PwCard : Type where
  nameText : Option String
  brandText : Option String
  hrefAttr : Option String
  priceText : Option String
  comparePriceText : Option String
  discountText : Option String
  imgSrcAttr : Option String

/-- Injection of an optional extracted string into a record value, as the
extraction code stores either the string or None. -/
def optVal : Option String → Val
  | some s => vStr s
  | none => vNone

/-- Extraction of one raw record by JustYolScraper from one listing
element (justyol.py lines 103 to 146): the product URL is prefixed with
the site root when the relative href is truthy, the compare at price
defaults to the sale price, protocol relative image URLs get an explicit
scheme, and the element is dropped unless the name is truthy. -/
def pwExtractCard (c : PwCard) : Option (List (String × Val)) :=
  let productUrl : Option String :=
    match c.hrefAttr with
    | some r => if r.isEmpty then none else some ("https://justyol.com" ++ r)
    | none => none
  let origPrice : Option String :=
    match c.comparePriceText with
    | some t => some t
    | none => c.priceText
  let imgUrl : Option String :=
    match c.imgSrcAttr with
    | some u => some (if !u.isEmpty && startsTwoSlash u then "https:" ++ u else u)
    | none => none
  match c.nameText with
  | some nm =>
    if nm.isEmpty then none
    else
      some [("name", vStr nm),
            ("brand", optVal c.brandText),
            ("price", optVal c.priceText),
            ("original_price", optVal origPrice),
            ("discount", optVal c.discountText),
            ("url", optVal productUrl),
            ("image_url", optVal imgUrl)]
  | none => none

/-- _extract_products of JustYolScraper over the listing elements of one
page. -/
def pwExtract (cards : List PwCard) : List (List (String × Val)) :=
  cards.filterMap pwExtractCard

/-- Pagination state of one rendered page for _go_to_next_page: whether a
next control exists and the value of its aria-disabled attribute, whether
a load more control exists, and whether the queries raise (any exception
in the helper is caught and reported as no next page). -/
structure PwPage : Type where
  nextButton : Option (Option String)
  loadMore : Bool
  navRaises : Bool

/-- _go_to_next_page of JustYolScraper (justyol.py lines 154 to 187): a
present next control is followed unless its aria-disabled attribute is the
string true; with no next control a load more control is tried; any error
yields false. -/
def goToNextPage (pg : PwPage) : Bool :=
  if pg.navRaises then false
  else
    match pg.nextButton with
    | some dis => if dis = some "true" then false else true
    | none => pg.loadMore

/-- The pagination loop of JustYolScraper.scrape_products (justyol.py
lines 63 to 83), driven by an environment that gives the cards and the
pagination state of the page visited at each step. The first component is
the accumulated records, the second counts page extraction calls. The
argument r is the number of loop iterations remaining out of the page
budget and i indexes the visited page. -/
def pwGo (pageAt : Nat → List PwCard × PwPage) : Nat → Nat → List (List (String × Val)) × Nat
  | 0, _ => ([], 0)
  | r + 1, i =>
    let ps := pwExtract (pageAt i).1
    if r = 0 then (ps, 1)
    else if goToNextPage (pageAt i).2 then
      let rest := pwGo pageAt r (i + 1)
      (ps ++ rest.1, 1 + rest.2)
    else (ps, 1)

/-- JustYolScraper.scrape_products with a page budget: up to pages loop
iterations starting at the first visited page. Failures of the initial
navigation or of a page extraction propagate out of the backend and are
not modelled here; they surface through the orchestrator model. -/
def pwScrape (pageAt : Nat → List PwCard × PwPage) (pages : Nat) : List (List (String × Val)) × Nat :=
  pwGo pageAt pages 0

/-- One listing element of the selenium DOM fallback, at the level of
resolved selector outcomes (selenium_scraper.py lines 125 to 196): the
name is resolved through its two selector alternatives before this record
is built, the price through its two alternatives likewise kept separate. -/
structure SelCard : Type where
  nameText : Option String
  hrefAttr : Option String
  brandText : Option String
  salePriceText : Option String
  cardPriceText : Option String
  comparePriceText : Option String
  discountText : Option String
  imgAttr : Option String

/-- Rewrite of a protocol relative image URL to an https URL, as in
selenium_scraper.py lines 187 to 189: applied only when the URL is truthy. -/
def fixProtoRel (u : String) : String :=
  if startsTwoSlash u then "https:" ++ u else u

/-- Extraction of one product dict by the selenium fallback from one card.
Keys are inserted only when their try block succeeds: name and url when
their elements resolve, brand when present, price always (with the text
N/A as last resort), original_price always (defaulting to the resolved
price), discount and image_url when present and truthy. The card is kept
exactly when the name key was set, even with empty text. -/
def selExtractCard (c : SelCard) : Option (List (String × Val)) :=
  match c.nameText with
  | none => none
  | some nm =>
    let priceText : String :=
      match c.salePriceText with
      | some t => pyStripStr t
      | none =>
        match c.cardPriceText with
        | some t => pyStripStr t
        | none => "N/A"
    let origText : String :=
      match c.comparePriceText with
      | some t => pyStripStr t
      | none => priceText
    some
      ([("name", vStr (pyStripStr nm))]
        ++ (match c.hrefAttr with
            | some u => if u.isEmpty then [] else [("url", vStr u)]
            | none => [])
        ++ (match c.brandText with
            | some b => [("brand", vStr (pyStripStr b))]
            | none => [])
        ++ [("price", vStr priceText), ("original_price", vStr origText)]
        ++ (match c.discountText with
            | some d => [("discount", vStr (pyStripStr d))]
            | none => [])
        ++ (match c.imgAttr with
            | some u => if u.isEmpty then [] else [("image_url", vStr (fixProtoRel u))]
            | none => []))

/-- One page of the selenium query parameter fallback: whether loading or
processing the page raises (caught by the per page try, ending the loop),
whether the title carries a not found signal, and the card lists returned
by the primary and the alternative card selector. -/
structure SelPage : Type where
  loadFails : Bool
  notFound : Bool
  cardsA : List SelCard
  cardsB : List SelCard

/-- The page loop of the selenium fallback (selenium_scraper.py lines 101
to 204): pages are fetched in sequence; the loop ends early on a page
error, a not found title, or when both card selectors come back empty.
The first component is the accumulated records, the second counts pages
fetched. -/
def selFallback (pageAt : Nat → SelPage) : Nat → Nat → List (List (String × Val)) × Nat
  | 0, _ => ([], 0)
  | r + 1, i =>
    let pg := pageAt i
    if pg.loadFails then ([], 1)
    else if pg.notFound then ([], 1)
    else
      let cards := if pg.cardsA.isEmpty then pg.cardsB else pg.cardsA
      if cards.isEmpty then ([], 1)
      else
        let rest := selFallback pageAt r (i + 1)
        (cards.filterMap selExtractCard ++ rest.1, 1 + rest.2)

/-- Environment of one JustYolSeleniumScraper.scrape_products invocation:
whether constructing the Chrome driver raises, whether the network
monitoring phase raises, the product list found in captured network
traffic when any response with a products key was captured, and the pages
served to the DOM fallback. -/
structure SelEnv : Type where
  launchFails : Bool
  monitorRaises : Bool
  netProducts : Option (List (List (String × Val)))
  pageAt : Nat → SelPage

/-- JustYolSeleniumScraper.scrape_products (selenium_scraper.py lines 32
to 210). The driver construction on line 58 happens before the try block:
when it raises, the exception leaves scrape_products. Inside the try,
any error is caught and an empty list is returned; otherwise the sniffed
products are returned when found, else the DOM fallback runs starting at
page one. -/
def seleniumScrape (env : SelEnv) (pages : Nat) : Except Unit (List (List (String × Val))) :=
  if env.launchFails then Except.error ()
  else if env.monitorRaises then Except.ok []
  else
    match env.netProducts with
    | some ps => Except.ok ps
    | none => Except.ok (selFallback env.pageAt pages 1).1

/-- The scraping method selected on the command line of scrape.py. -/
inductive Method : Type where
  | api
  | selenium
  | playwright
  | auto
deriving DecidableEq

/-- One extraction backend, in the order main tries them. -/
inductive Backend : Type where
  | api
  | selenium
  | playwright
deriving DecidableEq

/-- The acceptance test main applies to each backend result: the Python
condition result and len(result) > 3. -/
def accepted (l : List (List (String × Val))) : Bool :=
  !l.isEmpty && decide (3 < l.length)

/-- The playwright block of main (scrape.py lines 72 to 92): entered in
auto mode only while products is still empty, or when playwright is
forced. The whole block runs under try, so an error from the backend
leaves products unchanged. The accepted result must be truthy and have
more than three records. -/
def pwBlock (m : Method) (prods : List (List (String × Val))) (inv : List Backend)
    (p : Except Unit (List (List (String × Val)))) :
    Except Unit (List (List (String × Val)) × List Backend) :=
  if (m = Method.auto ∧ prods.isEmpty = true) ∨ m = Method.playwright then
    match p with
    | Except.ok pl =>
      Except.ok ((if accepted pl then pl else prods), inv ++ [Backend.playwright])
    | Except.error _ => Except.ok (prods, inv ++ [Backend.playwright])
  else Except.ok (prods, inv)

/-- The backend selection of main (scrape.py lines 43 to 96) over the
outcome of each backend: a is what the API backend returns (it never
raises, every attempt inside it is wrapped), s and p are the selenium and
playwright outcomes, which may be exceptions. The selenium call is not
wrapped in a try, so its exception propagates out of main, modelled as an
error result. The returned pair carries the selected products and the
list of backends whose scrape was invoked, in invocation order. -/
def mainProducts (m : Method) (a : List (List (String × Val)))
    (s p : Except Unit (List (List (String × Val)))) :
    Except Unit (List (List (String × Val)) × List Backend) :=
  let prods1 : List (List (String × Val)) :=
    if m = Method.auto ∨ m = Method.api then (if accepted a then a else [])
    else []
  let inv1 : List Backend :=
    if m = Method.auto ∨ m = Method.api then [Backend.api] else []
  if (m = Method.auto ∧ prods1.isEmpty = true) ∨ m = Method.selenium then
    match s with
    | Except.error e => Except.error e
    | Except.ok sl =>
      pwBlock m (if accepted sl then sl else prods1) (inv1 ++ [Backend.selenium]) p
  else pwBlock m prods1 inv1 p

/-- A list with more than three elements is not empty. -/
lemma isEmpty_false_of_three_lt {α : Type} {l : List α} (h : 3 < l.length) :
    l.isEmpty = false := by
  cases l with
  | nil => simp at h
  | cons x t => rfl

/-- A name that fails the sentinel test differs from the sentinel value. -/
lemma ne_sentinel_of_isSentinelName_false {v : Val} (h : isSentinelName v = false) :
    v ≠ vStr "Unknown Product" := by
  cases v with
  | vStr s =>
    intro hv
    cases hv
    simp [isSentinelName] at h
  | vNone => intro hv; cases hv
  | vInt n => intro hv; cases hv
  | vRat q => intro hv; cases hv
  | vList xs => intro hv; cases hv
  | vDict kvs => intro hv; cases hv

/-- A truthy string is not empty. -/
lemma ne_empty_of_truthy_vStr {s : String} (h : truthy (vStr s) = true) : s ≠ "" := by
  intro hs
  subst hs
  exact absurd h (by decide)

/-- A nonempty string is truthy. -/
lemma truthy_vStr_of_ne_empty {s : String} (h : s ≠ "") : truthy (vStr s) = true := by
  show (!s.isEmpty) = true
  cases hse : s.isEmpty with
  | true => exact absurd ((String.isEmpty_iff s).mp hse) h
  | false => rfl

/-- firstNumToken skips a digit free front segment. -/
lemma firstNumToken_append {l1 l2 : List Char}
    (h : l1.all (fun c => !c.isDigit) = true) :
    firstNumToken (l1 ++ l2) = firstNumToken l2 := by
  induction l1 with
  | nil => rfl
  | cons c rest ih =>
    rw [List.all_cons, Bool.and_eq_true, Bool.not_eq_true'] at h
    rw [List.cons_append]
    simp only [firstNumToken]
    rw [h.1, if_neg (by simp)]
    exact ih h.2

/-- firstDigitRun skips a digit free front segment. -/
lemma firstDigitRun_append {l1 l2 : List Char}
    (h : l1.all (fun c => !c.isDigit) = true) :
    firstDigitRun (l1 ++ l2) = firstDigitRun l2 := by
  induction l1 with
  | nil => rfl
  | cons c rest ih =>
    rw [List.all_cons, Bool.and_eq_true, Bool.not_eq_true'] at h
    rw [List.cons_append]
    simp only [firstDigitRun]
    rw [h.1, if_neg (by simp)]
    exact ih h.2

/-- A digit free character list has no numeric token. -/
lemma firstNumToken_none {l : List Char} (h : l.all (fun c => !c.isDigit) = true) :
    firstNumToken l = none := by
  have h2 := @firstNumToken_append l [] h
  rw [List.append_nil] at h2
  exact h2

/-- A digit free character list has no digit run. -/
lemma firstDigitRun_none {l : List Char} (h : l.all (fun c => !c.isDigit) = true) :
    firstDigitRun l = none := by
  have h2 := @firstDigitRun_append l [] h
  rw [List.append_nil] at h2
  exact h2

/-- Collapsing a fully whitespace list while already inside a run yields
nothing. -/
lemma collapseWsAux_true_of_allws {l : List Char} (h : l.all isPySpace = true) :
    collapseWsAux true l = [] := by
  induction l with
  | nil => rfl
  | cons c rest ih =>
    rw [List.all_cons, Bool.and_eq_true] at h
    unfold collapseWsAux
    rw [h.1]
    exact ih h.2

/-- Collapsing then stripping a fully whitespace list yields the empty
list. -/
lemma pyStrip_collapse_of_allws {l : List Char} (h : l.all isPySpace = true) :
    pyStrip (collapseWsAux false l) = [] := by
  cases l with
  | nil => rfl
  | cons c rest =>
    rw [List.all_cons, Bool.and_eq_true] at h
    unfold collapseWsAux
    rw [h.1, collapseWsAux_true_of_allws h.2]
    rfl

/-- With a next control followed on every visited page, the pagination
loop runs through its whole budget. -/
lemma pwGo_count_of_next {pageAt : Nat → List PwCard × PwPage}
    (h : ∀ i, goToNextPage (pageAt i).2 = true) :
    ∀ r i, (pwGo pageAt r i).2 = r := by
  intro r
  induction r with
  | zero => intro i; rfl
  | succ r ih =>
    intro i
    unfold pwGo
    by_cases hr : r = 0
    · subst hr; rfl
    · rw [if_neg hr, h i, if_pos rfl]
      show 1 + (pwGo pageAt r (i + 1)).2 = r + 1
      rw [ih (i + 1)]
      omega

/-- The acceptance test holds exactly for results with more than three
records. -/
lemma accepted_eq_true {l : List (List (String × Val))} (h : 3 < l.length) :
    accepted l = true := by
  unfold accepted
  rw [isEmpty_false_of_three_lt h, decide_eq_true h]
  rfl

/-- The acceptance test fails for results with at most three records. -/
lemma accepted_eq_false {l : List (List (String × Val))} (h : ¬3 < l.length) :
    accepted l = false := by
  unfold accepted
  rw [decide_eq_false h, Bool.and_false]

/-- clean_price is absent on digit free strings. -/
lemma clean_price_nodigit {s : String}
    (h : s.data.all (fun c => !c.isDigit) = true) :
    clean_price (vStr s) = vNone := by
  have hp : firstNumToken s.data = none := firstNumToken_none h
  simp [clean_price, pyToStr, hp]

/-- clean_discount is absent on digit free strings. -/
lemma clean_discount_nodigit {s : String}
    (h : s.data.all (fun c => !c.isDigit) = true) :
    clean_discount (vStr s) = vNone := by
  have hp : firstDigitRun s.data = none := firstDigitRun_none h
  simp [clean_discount, pyToStr, hp]

/-- A string is empty exactly when its character list is. -/
lemma string_ne_empty_of_append {pre s : String} (h : s ≠ "") : pre ++ s ≠ "" := by
  intro he
  apply h
  have hd : pre.data ++ s.data = [] := by
    rw [← String.data_append, he]
  rcases List.append_eq_nil.mp hd with ⟨-, h2⟩
  apply String.ext
  rw [h2]

/-- Prepending a digit free front does not change clean_price. -/
lemma clean_price_append {pre s : String}
    (h : pre.data.all (fun c => !c.isDigit) = true) :
    clean_price (vStr (pre ++ s)) = clean_price (vStr s) := by
  have htok : firstNumToken (pre ++ s).data = firstNumToken s.data := by
    rw [String.data_append]
    exact firstNumToken_append h
  by_cases hs : s = ""
  · subst hs
    have h2 : (pre ++ "").data.all (fun c => !c.isDigit) = true := by
      rw [String.data_append]
      simpa using h
    rw [clean_price_nodigit h2]
    rfl
  · have hts : truthy (vStr s) = true := truthy_vStr_of_ne_empty hs
    have htp : truthy (vStr (pre ++ s)) = true :=
      truthy_vStr_of_ne_empty (string_ne_empty_of_append hs)
    unfold clean_price
    rw [hts, htp]
    simp only [pyToStr, if_pos rfl]
    rw [htok]

/-- Prepending a digit free front does not change clean_discount. -/
lemma clean_discount_append {pre s : String}
    (h : pre.data.all (fun c => !c.isDigit) = true) :
    clean_discount (vStr (pre ++ s)) = clean_discount (vStr s) := by
  have htok : firstDigitRun (pre ++ s).data = firstDigitRun s.data := by
    rw [String.data_append]
    exact firstDigitRun_append h
  by_cases hs : s = ""
  · subst hs
    have h2 : (pre ++ "").data.all (fun c => !c.isDigit) = true := by
      rw [String.data_append]
      simpa using h
    rw [clean_discount_nodigit h2]
    rfl
  · have hts : truthy (vStr s) = true := truthy_vStr_of_ne_empty hs
    have htp : truthy (vStr (pre ++ s)) = true :=
      truthy_vStr_of_ne_empty (string_ne_empty_of_append hs)
    unfold clean_discount
    rw [hts, htp]
    simp only [pyToStr, if_pos rfl]
    rw [htok]

/-- Claim C8: clean_price extracts the first contiguous numeric token
(digits with an optional single decimal point) anywhere in the input and
returns its numeric value, and clean_discount extracts the first
contiguous run of digits (an optional leading minus and trailing percent
are ignored) and returns it as a non negative integer; absent input or an
input with no digits yields an absent result, witnessed on the spec
examples including clean_price of 152.99 dh and clean_discount of -50%. -/
theorem C8_cleaner_extraction :
    (∀ s : String, s.data.all (fun c => !c.isDigit) = true →
        clean_price (vStr s) = vNone ∧ clean_discount (vStr s) = vNone) ∧
    (∀ pre s : String, pre.data.all (fun c => !c.isDigit) = true →
        clean_price (vStr (pre ++ s)) = clean_price (vStr s) ∧
        clean_discount (vStr (pre ++ s)) = clean_discount (vStr s)) ∧
    (∀ (s : String) (n : Int), clean_discount (vStr s) = vInt n → 0 ≤ n) ∧
    (clean_price vNone = vNone ∧ clean_discount vNone = vNone ∧
      clean_price (vStr "152.99 dh") = vRat (15299 / 100) ∧
      clean_price (vStr "152 dh") = vRat 152 ∧
      clean_price (vStr "Price not available") = vNone ∧
      clean_discount (vStr "-50%") = vInt 50 ∧
      clean_discount (vStr "-50") = vInt 50 ∧
      clean_discount (vStr "Sale") = vNone) := by
  refine ⟨?_, ?_, ?_, ?_, ?_, ?_, ?_, ?_, ?_, ?_, ?_⟩
  · exact fun s h => ⟨clean_price_nodigit h, clean_discount_nodigit h⟩
  · exact fun pre s h => ⟨clean_price_append h, clean_discount_append h⟩
  · intro s n h
    unfold clean_discount at h
    split at h
    · split at h
      · injection h with h2
        rw [← h2]
        exact Int.natCast_nonneg _
      · cases h
    · cases h
  · rfl
  · rfl
  · show vRat (tokenToRat ('1' :: '5' :: '2' :: '.' :: '9' :: '9' :: [])) =
      vRat (15299 / 100)
    have h : tokenToRat ('1' :: '5' :: '2' :: '.' :: '9' :: '9' :: []) =
        ((152 : Nat) : ℚ) + ((99 : Nat) : ℚ) / 10 ^ 2 := rfl
    rw [h]
    push_cast
    norm_num
  · show vRat (tokenToRat ('1' :: '5' :: '2' :: [])) = vRat 152
    have h : tokenToRat ('1' :: '5' :: '2' :: []) = ((152 : Nat) : ℚ) := rfl
    rw [h]
    norm_num
  · rfl
  · rfl
  · rfl
  · rfl

/-- Witness for C8: the general parts applied at concrete inputs. -/
theorem C8_cleaner_extraction_witness :
    (clean_price (vStr "abc") = vNone ∧ clean_discount (vStr "abc") = vNone) ∧
    (clean_price (vStr ("Now: " ++ "152.99 dh")) = clean_price (vStr "152.99 dh") ∧
      clean_discount (vStr ("Now: " ++ "152.99 dh")) =
        clean_discount (vStr "152.99 dh")) ∧
    (0 : Int) ≤ 50 :=
  ⟨C8_cleaner_extraction.1 "abc" (by decide),
   C8_cleaner_extraction.2.1 "Now: " "152.99 dh" (by decide),
   C8_cleaner_extraction.2.2.1 "-50%" 50 rfl⟩

/-- Claim C10: a name consisting only of whitespace is truthy, so
standardization keeps the record, while clean_name collapses and strips it
to the empty string rather than to an absent value, letting the pipeline
emit a cleaned product whose name is the empty string. -/
theorem C10_whitespace_name :
    ∀ s : String, s.data.all isPySpace = true → s ≠ "" →
      ∃ st, standardize_one [("name", vStr s)] = some st ∧
        lookupV (clean_one st) "name" = some (vStr "") := by
  intro s hws hne
  have ht : truthy (vStr s) = true := truthy_vStr_of_ne_empty hne
  have hsent : isSentinelName (vStr s) = false := by
    by_cases h : s = "Unknown Product"
    · subst h
      exact absurd hws (by decide)
    · simp only [isSentinelName]
      simp [h]
  refine ⟨[("name", vStr s), ("brand", vNone), ("price", vNone),
      ("original_price", vNone), ("discount", vNone), ("url", vNone),
      ("image_url", vNone)], ?_, ?_⟩
  · unfold standardize_one
    rw [show resolveName [("name", vStr s)] = vStr s from rfl, ht, hsent]
    rfl
  · show some (clean_name (vStr s)) = some (vStr "")
    have hc : clean_name (vStr s) =
        vStr (String.mk (pyStrip (collapseWsAux false s.data))) := by
      unfold clean_name
      rw [ht]
      rfl
    rw [hc, pyStrip_collapse_of_allws hws]

/-- Witness for C10 at the three space name. -/
theorem C10_whitespace_name_witness :
    ∃ st, standardize_one [("name", vStr "   ")] = some st ∧
      lookupV (clean_one st) "name" = some (vStr "") :=
  C10_whitespace_name "   " (by decide) (by decide)

/-- Claim C5: the standardizer resolves price as the first present of
price, stringified price_min, the first variant price, else absent, and
original_price as the first present of original_price, compare_at_price,
the first variant compare_at_price, else the resolved price; in
particular, when both price and price_min are present the price value
wins. -/
theorem C5_price_priority :
    (∀ p, resolvePrice p = priceSpecChain p ∧
        resolveOrigPrice p = origPriceSpecChain p) ∧
    (∀ p st, standardize_one p = some st →
        lookupV st "price" = some (resolvePrice p) ∧
        lookupV st "original_price" = some (resolveOrigPrice p)) ∧
    (∀ p v w, lookupV p "price" = some v → lookupV p "price_min" = some w →
        resolvePrice p = v) := by
  refine ⟨fun p => ⟨rfl, rfl⟩, ?_, ?_⟩
  · intro p st h
    unfold standardize_one at h
    split at h
    · injection h with he
      subst he
      constructor
      · cases himg : imageUrlAssign p <;> rfl
      · cases himg : imageUrlAssign p <;> rfl
    · exact Option.noConfusion h
  · intro p v w hp _hpm
    unfold resolvePrice
    rw [hp]

/-- Witness for C5: a record carrying name, price and price_min. -/
theorem C5_price_priority_witness :
    (lookupV [("name", vStr "P"), ("brand", vNone), ("price", vStr "5 dh"),
        ("original_price", vStr "5 dh"), ("discount", vNone), ("url", vNone),
        ("image_url", vNone)] "price" =
      some (resolvePrice
        [("name", vStr "P"), ("price", vStr "5 dh"), ("price_min", vStr "3")]) ∧
     lookupV [("name", vStr "P"), ("brand", vNone), ("price", vStr "5 dh"),
        ("original_price", vStr "5 dh"), ("discount", vNone), ("url", vNone),
        ("image_url", vNone)] "original_price" =
      some (resolveOrigPrice
        [("name", vStr "P"), ("price", vStr "5 dh"), ("price_min", vStr "3")])) ∧
    resolvePrice [("name", vStr "P"), ("price", vStr "5 dh"),
      ("price_min", vStr "3")] = vStr "5 dh" :=
  ⟨C5_price_priority.2.1
      [("name", vStr "P"), ("price", vStr "5 dh"), ("price_min", vStr "3")]
      [("name", vStr "P"), ("brand", vNone), ("price", vStr "5 dh"),
        ("original_price", vStr "5 dh"), ("discount", vNone), ("url", vNone),
        ("image_url", vNone)] rfl,
   C5_price_priority.2.2
      [("name", vStr "P"), ("price", vStr "5 dh"), ("price_min", vStr "3")]
      (vStr "5 dh") (vStr "3") rfl rfl⟩

/-- Claim C6: every standardized record carries a truthy name different
from the sentinel, and a raw record lacking both name and title
contributes nothing to the output. -/
theorem C6_name_invariant :
    (∀ ps st, st ∈ standardize_products ps →
        ∃ v, lookupV st "name" = some v ∧ truthy v = true ∧
          (∀ s, v = vStr s → s ≠ "") ∧ v ≠ vStr "Unknown Product") ∧
    (∀ p ps, lookupV p "name" = none → lookupV p "title" = none →
        standardize_products (p :: ps) = standardize_products ps) := by
  constructor
  · intro ps
    induction ps with
    | nil =>
      intro st h
      simp [standardize_products] at h
    | cons p rest ih =>
      intro st h
      simp only [standardize_products] at h
      cases h1 : standardize_one p with
      | none =>
        rw [h1] at h
        exact ih st h
      | some st1 =>
        rw [h1] at h
        have h2 : st = st1 ∨ st ∈ standardize_products rest := by
          cases h with
          | head => exact Or.inl rfl
          | tail _ hmem => exact Or.inr hmem
        cases h2 with
        | inl he =>
          subst he
          unfold standardize_one at h1
          split at h1
          next hg =>
            rw [Bool.and_eq_true, Bool.not_eq_true'] at hg
            injection h1 with h1e
            refine ⟨resolveName p, ?_, hg.1,
              fun s hv => ne_empty_of_truthy_vStr (hv ▸ hg.1),
              ne_sentinel_of_isSentinelName_false hg.2⟩
            rw [← h1e]
            rfl
          next hg => exact Option.noConfusion h1
        | inr hmem => exact ih st hmem
  · intro p ps h1 h2
    have hn : resolveName p = vStr "Unknown Product" := by
      unfold resolveName
      rw [h1, h2]
    have h0 : standardize_one p = none := by
      unfold standardize_one
      rw [hn]
      rfl
    simp only [standardize_products]
    rw [h0]

/-- Witness for C6: a kept record and a dropped record. -/
theorem C6_name_invariant_witness :
    (∃ v, lookupV [("name", vStr "A"), ("brand", vNone), ("price", vNone),
        ("original_price", vNone), ("discount", vNone), ("url", vNone),
        ("image_url", vNone)] "name" = some v ∧ truthy v = true ∧
        (∀ s, v = vStr s → s ≠ "") ∧ v ≠ vStr "Unknown Product") ∧
    standardize_products [[("id", vNone)]] = standardize_products [] :=
  ⟨C6_name_invariant.1 [[("name", vStr "A")]]
      [("name", vStr "A"), ("brand", vNone), ("price", vNone),
        ("original_price", vNone), ("discount", vNone), ("url", vNone),
        ("image_url", vNone)] (List.Mem.head _),
   C6_name_invariant.2 [("id", vNone)] [] rfl rfl⟩

/-- Counterexample to claim C7: a raw record whose image value is neither
a string nor a dict with a src key is standardized without any image_url
key, so not all seven fields are present. -/
theorem C7_missing_image_url :
    standardize_one [("name", vStr "x"), ("image", vNone)] =
      some [("name", vStr "x"), ("brand", vNone), ("price", vNone),
        ("original_price", vNone), ("discount", vNone), ("url", vNone)] ∧
    lookupV [("name", vStr "x"), ("brand", vNone), ("price", vNone),
        ("original_price", vNone), ("discount", vNone), ("url", vNone)]
      "image_url" = none :=
  ⟨rfl, rfl⟩

/-- Claim C7 as amended: every record accepted by the standardizer carries
the six fields name, brand, price, original_price, discount and url, in
this order, and carries image_url as seventh field unless the image elif
chain performed no assignment, in which case the key is absent. -/
theorem C7_amended_fields :
    ∀ p st, standardize_one p = some st →
      st.map Prod.fst =
          ["name", "brand", "price", "original_price", "discount", "url",
            "image_url"] ∨
      st.map Prod.fst =
          ["name", "brand", "price", "original_price", "discount", "url"] := by
  intro p st h
  unfold standardize_one at h
  split at h
  · injection h with he
    subst he
    cases himg : imageUrlAssign p with
    | some v =>
      left
      rfl
    | none =>
      right
      rfl
  · exact Option.noConfusion h

/-- Witness for the amended C7 at the counterexample record. -/
theorem C7_amended_fields_witness :
    ([("name", vStr "x"), ("brand", vNone), ("price", vNone),
        ("original_price", vNone), ("discount", vNone),
        ("url", vNone)].map Prod.fst =
        ["name", "brand", "price", "original_price", "discount", "url",
          "image_url"] ∨
     [("name", vStr "x"), ("brand", vNone), ("price", vNone),
        ("original_price", vNone), ("discount", vNone),
        ("url", vNone)].map Prod.fst =
        ["name", "brand", "price", "original_price", "discount", "url"]) :=
  C7_amended_fields [("name", vStr "x"), ("image", vNone)]
    [("name", vStr "x"), ("brand", vNone), ("price", vNone),
      ("original_price", vNone), ("discount", vNone), ("url", vNone)] rfl

/-- Claim C9: with every visited page exposing an enabled next control,
the playwright pagination loop performs exactly N page extraction calls
for page budget N, never more. -/
theorem C9_page_budget :
    ∀ (N : Nat) (pageAt : Nat → List PwCard × PwPage), 1 ≤ N →
      (∀ i, (pageAt i).2.navRaises = false ∧ (pageAt i).2.nextButton ≠ none ∧
        (pageAt i).2.nextButton ≠ some (some "true")) →
      (pwScrape pageAt N).2 = N := by
  intro N pageAt _ h
  have hgo : ∀ i, goToNextPage (pageAt i).2 = true := by
    intro i
    obtain ⟨h1, h2, h3⟩ := h i
    unfold goToNextPage
    rw [h1, if_neg (by simp)]
    cases hb : (pageAt i).2.nextButton with
    | none => exact absurd hb h2
    | some dis =>
      by_cases hd : dis = some "true"
      · subst hd
        exact absurd hb h3
      · show (if dis = some "true" then false else true) = true
        rw [if_neg hd]
  exact pwGo_count_of_next hgo N 0

/-- Witness for C9 with budget two and a page stream that always exposes
an enabled next control. -/
theorem C9_page_budget_witness :
    (pwScrape (fun _ => ([], ⟨some none, false, false⟩)) 2).2 = 2 :=
  C9_page_budget 2 _ (by norm_num) (fun i => ⟨rfl, by simp, by simp⟩)

/-- Counterexample to claim C4: with a page budget of three, pages whose
extraction yields zero records on every page, and a next control always
present, the playwright traversal still performs a third extraction call
after the first two consecutive empty pages, instead of terminating. -/
theorem C4_empty_pages_continue :
    pwScrape (fun _ => ([], ⟨some none, false, false⟩)) 3 = ([], 3) := rfl

/-- Claim C4 as amended: neither traversal has a two consecutive empty
pages guard. The selenium query parameter fallback stops after the first
page on which both card selectors come back empty, fetching no further
page; the playwright traversal has no empty page guard at all and, with a
next control always present, runs through its whole page budget no matter
how many consecutive pages yield zero records. -/
theorem C4_amended_termination :
    (∀ (pageAt : Nat → SelPage) (r i : Nat),
        (pageAt i).cardsA = [] → (pageAt i).cardsB = [] →
        (selFallback pageAt (r + 1) i).2 = 1) ∧
    (∀ pages : Nat,
        (pwScrape (fun _ => ([], ⟨some none, false, false⟩)) pages).2 = pages) := by
  constructor
  · intro pageAt r i h1 h2
    simp only [selFallback]
    rw [h1, h2]
    cases hl : (pageAt i).loadFails with
    | true => simp [hl]
    | false =>
      cases hn : (pageAt i).notFound with
      | true => simp [hl, hn]
      | false => simp [hl, hn]
  · intro pages
    have hgo : ∀ i : Nat,
        goToNextPage ((fun (_ : Nat) =>
          (([] : List PwCard),
            ({ nextButton := some none, loadMore := false,
               navRaises := false } : PwPage))) i).2 = true :=
      fun _ => rfl
    exact pwGo_count_of_next hgo pages 0

/-- Witness for the amended C4: a first page with empty card lists ends
the selenium fallback after one page fetch. -/
theorem C4_amended_termination_witness :
    (selFallback (fun _ => ⟨false, false, [], []⟩) 3 1).2 = 1 :=
  C4_amended_termination.1 (fun _ => ⟨false, false, [], []⟩) 2 1 rfl rfl

/-- Claim C3: in auto mode the orchestrator invokes the API, selenium and
playwright backends strictly in this order, short circuits at the first
backend whose result count exceeds three (later backends are not
invoked), returns that backend result unchanged, and returns an empty
sequence with all three backends tried when none is accepted. -/
theorem C3_auto_short_circuit :
    ∀ a sl pl : List (List (String × Val)),
      mainProducts Method.auto a (Except.ok sl) (Except.ok pl) =
        Except.ok
          (if 3 < a.length then (a, [Backend.api])
           else if 3 < sl.length then (sl, [Backend.api, Backend.selenium])
           else if 3 < pl.length then
             (pl, [Backend.api, Backend.selenium, Backend.playwright])
           else ([], [Backend.api, Backend.selenium, Backend.playwright])) := by
  intro a sl pl
  unfold mainProducts pwBlock
  by_cases ha : 3 < a.length
  · rw [accepted_eq_true ha]
    simp [ha, isEmpty_false_of_three_lt ha]
  · rw [accepted_eq_false ha]
    by_cases hs : 3 < sl.length
    · simp [accepted_eq_true hs, ha, hs, isEmpty_false_of_three_lt hs]
    · by_cases hp : 3 < pl.length
      · simp [accepted_eq_false hs, accepted_eq_true hp, ha, hs, hp]
      · simp [accepted_eq_false hs, accepted_eq_false hp, ha, hs, hp]

/-- Counterexample to claim C1: with the API backend pinned and returning
a single record, main does not return that result as is; the threshold
still applies and the final product list is empty, although the pinned
backend returned one record. -/
theorem C1_forced_threshold_cex :
    mainProducts Method.api [[("name", vStr "p")]] (Except.ok []) (Except.ok []) =
      Except.ok ([], [Backend.api]) ∧
    ([[("name", vStr "p")]] : List (List (String × Val))) ≠ [] :=
  ⟨rfl, by simp⟩

/-- Claim C1 as amended: when the caller pins a single backend, no other
backend is invoked as a fallback, but the result is not returned as is:
the success threshold of more than three records still applies, a result
at or below it is discarded and the run ends with an empty product list,
and a pinned playwright backend failure is caught by the orchestrator and
likewise yields an empty list (only a pinned selenium launch failure
escapes, see the C2 development). -/
theorem C1_amended_forced_mode :
    ∀ a sl pl : List (List (String × Val)),
      mainProducts Method.api a (Except.ok sl) (Except.ok pl) =
        Except.ok ((if 3 < a.length then a else []), [Backend.api]) ∧
      mainProducts Method.selenium a (Except.ok sl) (Except.ok pl) =
        Except.ok ((if 3 < sl.length then sl else []), [Backend.selenium]) ∧
      mainProducts Method.playwright a (Except.ok sl) (Except.ok pl) =
        Except.ok ((if 3 < pl.length then pl else []), [Backend.playwright]) ∧
      mainProducts Method.playwright a (Except.ok sl) (Except.error ()) =
        Except.ok ([], [Backend.playwright]) := by
  intro a sl pl
  refine ⟨?_, ?_, ?_, ?_⟩
  · unfold mainProducts pwBlock
    by_cases ha : 3 < a.length
    · rw [accepted_eq_true ha]
      simp [ha]
    · rw [accepted_eq_false ha]
      simp [ha]
  · unfold mainProducts pwBlock
    by_cases hs : 3 < sl.length
    · simp [accepted_eq_true hs, hs]
    · simp [accepted_eq_false hs, hs]
  · unfold mainProducts pwBlock
    by_cases hp : 3 < pl.length
    · simp [accepted_eq_true hp, hp]
    · simp [accepted_eq_false hp, hp]
  · unfold mainProducts pwBlock
    simp

/-- Counterexample to claim C2: when constructing the Chrome driver
raises, the exception leaves JustYolSeleniumScraper.scrape_products
instead of being converted to an empty record sequence, because the
construction happens before the try block. -/
theorem C2_launch_error_cex :
    seleniumScrape ⟨true, false, none, fun _ => ⟨false, false, [], []⟩⟩ 2 =
      Except.error () := rfl

/-- Claim C2 as amended: failures arising inside the selenium session
after the driver is constructed are converted to an empty record
sequence and never escape scrape_products, but a browser launch failure
during driver construction escapes uncaught (and the orchestrator wraps
only the playwright backend in a try, so that selenium exception crosses
the orchestrator boundary). -/
theorem C2_amended_containment :
    ∀ (env : SelEnv) (pages : Nat), env.launchFails = false →
      (∃ ps, seleniumScrape env pages = Except.ok ps) ∧
      (env.monitorRaises = true → seleniumScrape env pages = Except.ok []) := by
  intro env pages h
  constructor
  · unfold seleniumScrape
    rw [h]
    simp only [Bool.false_eq_true, if_false]
    by_cases hm : env.monitorRaises = true
    · exact ⟨[], by rw [if_pos hm]⟩
    · rw [if_neg hm]
      cases hnp : env.netProducts with
      | some ps => exact ⟨ps, rfl⟩
      | none => exact ⟨(selFallback env.pageAt pages 1).1, rfl⟩
  · intro hm
    unfold seleniumScrape
    rw [h, hm]
    simp

/-- Witness for the amended C2: a monitoring failure with a successful
launch yields the empty list, not an exception. -/
theorem C2_amended_containment_witness :
    (∃ ps, seleniumScrape ⟨false, true, none, fun _ => ⟨false, false, [], []⟩⟩ 5 =
      Except.ok ps) ∧
    seleniumScrape ⟨false, true, none, fun _ => ⟨false, false, [], []⟩⟩ 5 =
      Except.ok [] :=
  ⟨(C2_amended_containment ⟨false, true, none, fun _ => ⟨false, false, [], []⟩⟩
      5 rfl).1,
   (C2_amended_containment ⟨false, true, none, fun _ => ⟨false, false, [], []⟩⟩
      5 rfl).2 rfl⟩
